import Mathlib

/-!
Verification of the `Books` page component (src/src/pages/Books.js) of the
Edubooksfrontend repository, against its natural-language specification.

The component is shallowly embedded: JavaScript objects become association
lists of string keys and `Value`s, React state slots become explicit record
fields or function arguments, asynchronous outcomes (the Firestore document
write, the current clock, the freshly generated document id) become explicit
parameters, and scheduled timers become explicit `ScheduledTask` values that
a separate `runTask` function fires.
-/

set_option autoImplicit false

namespace Books

/-- A JavaScript value, as far as this component manipulates them:
strings, numbers, booleans and null.  Numbers are modelled as integers
(every numeric literal in the source is an integer). -/
inductive Value where
  | vStr : String → Value
  | vNum : Int → Value
  | vBool : Bool → Value
  | vNull : Value
deriving Repr, DecidableEq

/-- The `modal` state slot: `{ visible, message, isSuccess }`. -/
structure NotificationState where
  visible : Bool
  message : String
  isSuccess : Bool
deriving Repr, DecidableEq

/-- The object written by `setDoc` in `handlePurchase` (Books.js:134-140). -/
structure PurchaseRecord where
  ebookId : String
  bookTitle : String
  price : Value
  purchaseDate : String
  userId : String
deriving Repr, DecidableEq

/-- A task scheduled with `setTimeout`.  The only one in the source is the
callback at Books.js:113-116: partially dismiss the modal (set `visible`
to `false`, keeping the other fields) and navigate to a destination. -/
inductive ScheduledTask where
  | dismissThenNavigate : String → ScheduledTask
deriving Repr, DecidableEq

/-- Fire a scheduled task against the current modal state.  Returns the new
modal state and the list of navigations performed.  The callback at
Books.js:113-116 runs `setModal(prev => (\x7b ...prev, visible: false \x7d))`
— only `visible` changes — and then `navigate(dest)` once. -/
def runTask : ScheduledTask → NotificationState → NotificationState × List String
  | .dismissThenNavigate dest, m => ({ m with visible := false }, [dest])

/-- The modal value installed by both closing controls of the `Modal`
component (the X button at Books.js:164 and the OK button at Books.js:177):
`setModal(\x7b visible: false, message: '', isSuccess: false \x7d)`. -/
def modalCloseReset : NotificationState :=
  { visible := false, message := "", isSuccess := false }

/-- Everything one call of `handlePurchase` does:
  * `modal`: the notification it installs;
  * `write`: the document write it attempts (collection path with the fresh
    document id, and the record), or `none` when no write is attempted;
  * `persisted`: the records that persist after the call (empty when no
    write was attempted or the write failed);
  * `timer`: the `setTimeout` it schedules (delay in ms and the task). -/
structure PurchaseResult where
  modal : NotificationState
  write : Option (String × PurchaseRecord)
  persisted : List PurchaseRecord
  timer : Option (Nat × ScheduledTask)
deriving Repr, DecidableEq

/-- Shallow embedding of `handlePurchase` (Books.js:104-152).

Explicit parameters stand for the ambient state and the environment:
`appId` the module-level application namespace, `userId` and `db` the
React state slots (`db` is `true` when the Firestore handle is set),
`nowIso` the value of `new Date().toISOString()` at the call,
`newDocId` the fresh id generated by `doc(collection(db, path))`, and
`writeRes` the outcome of the awaited `setDoc` (`Except.error msg`
carries `error.message`). -/
def handlePurchase (appId : String) (userId : Option String) (db : Bool)
    (ebookId bookTitle : String) (price : Value)
    (nowIso newDocId : String) (writeRes : Except String Unit) :
    PurchaseResult :=
  match userId with
  | none =>
      { modal := { visible := true,
                   message := "You must be logged in to make a purchase. Redirecting you to register...",
                   isSuccess := false },
        write := none, persisted := [],
        timer := some (1500, .dismissThenNavigate "/register") }
  | some uid =>
      if ebookId = "" then
        { modal := { visible := true, message := "Ebook ID is missing.",
                     isSuccess := false },
          write := none, persisted := [], timer := none }
      else if db = false then
        { modal := { visible := true,
                     message := "Database connection failed. Cannot process purchase.",
                     isSuccess := false },
          write := none, persisted := [], timer := none }
      else
        let path := "artifacts/" ++ appId ++ "/users/" ++ uid ++ "/purchases/" ++ newDocId
        let record : PurchaseRecord :=
          { ebookId := ebookId, bookTitle := bookTitle, price := price,
            purchaseDate := nowIso, userId := uid }
        match writeRes with
        | .ok _ =>
            { modal := { visible := true,
                         message := "Successfully purchased \"" ++ bookTitle ++ "\"! Check your library.",
                         isSuccess := true },
              write := some (path, record), persisted := [record],
              timer := none }
        | .error msg =>
            { modal := { visible := true,
                         message := "Purchase failed: " ++ msg,
                         isSuccess := false },
              write := some (path, record), persisted := [],
              timer := none }

/-- `message` contains `pat` as a substring. -/
def containsStr (pat s : String) : Prop :=
  ∃ pre post : String, s = pre ++ pat ++ post

/-! ## Catalog subscription (Books.js:80-100) -/

/-- A catalog entry, i.e. a JavaScript object: an association list of
field names and values.  Keys are unique in every object the component
builds. -/
abbrev CatalogEntry := List (String × Value)

/-- One document of a Firestore snapshot: its document id (`doc.id`) and
its field contents (`doc.data()`, a JavaScript object with unique keys). -/
structure SnapDoc where
  id : String
  fields : List (String × Value)
deriving Repr, DecidableEq

/-- JavaScript object-key assignment `obj[k] = v`: overwrite the binding in
place when the key is present, append it otherwise. -/
def objInsert (obj : List (String × Value)) (k : String) (v : Value) :
    List (String × Value) :=
  if obj.any (fun p => p.1 = k) then
    obj.map (fun p => if p.1 = k then (k, v) else p)
  else
    obj ++ [(k, v)]

/-- JavaScript object spread `\x7b ...base, ...upd \x7d`: assign every
binding of `upd` into `base` in order, later keys overriding earlier
ones. -/
def objSpread (base upd : List (String × Value)) : List (String × Value) :=
  upd.foldl (fun acc kv => objInsert acc kv.1 kv.2) base

/-- The per-document mapping of the snapshot callback (Books.js:88-91):
`(\x7b id: doc.id, ...doc.data() \x7d)` — the object starts from the
document id and then spreads the field contents over it, so a field
named `id` overrides the document id. -/
def mkCatalogEntry (d : SnapDoc) : CatalogEntry :=
  objSpread [("id", Value.vStr d.id)] d.fields

/-- The snapshot callback's new catalog: `snapshot.docs.map(...)`. -/
def onSnapshotBooks (docs : List SnapDoc) : List CatalogEntry :=
  docs.map mkCatalogEntry

/-- `setBooks(fetchedBooks)` (Books.js:92): the previous catalog state is
ignored and replaced with the mapped snapshot. -/
def updateBooksOnSnapshot (_old : List CatalogEntry) (docs : List SnapDoc) :
    List CatalogEntry :=
  onSnapshotBooks docs

/-- The static default catalog `initialBooks` (Books.js:19-21). -/
def initialBooks : List CatalogEntry :=
  [[("id", Value.vStr "mern_stack_guide"),
    ("title", Value.vStr "MERN STACK"),
    ("description", Value.vStr "A complete MERN guide..."),
    ("price", Value.vNum 999)]]

/-- The subscription error callback (Books.js:93-97): `setBooks(initialBooks)`,
ignoring the previous catalog state. -/
def booksOnSubscribeError (_old : List CatalogEntry) : List CatalogEntry :=
  initialBooks

/-- The initial value of the `books` state slot:
`useState(initialBooks)` (Books.js:25). -/
def initBooksState : List CatalogEntry := initialBooks

/-- The id field of a displayed catalog entry (first binding of key `"id"`;
bindings are unique in every object the component builds). -/
def entryIdVal (e : CatalogEntry) : Option Value :=
  e.lookup "id"

/-! ## `Date.prototype.toISOString` model -/

/-- A JavaScript `Date` broken into its UTC components.  `toISOString`
uses the simplified format `YYYY-MM-DDTHH:mm:ss.sssZ` for years
0-9999, which is the range this model covers. -/
structure JsDate where
  year : Nat
  month : Nat
  day : Nat
  hour : Nat
  minute : Nat
  second : Nat
  ms : Nat
deriving Repr, DecidableEq

/-- Two decimal digits, zero padded (exact for `n < 100`). -/
def pad2 (n : Nat) : List Char :=
  [Nat.digitChar (n / 10 % 10), Nat.digitChar (n % 10)]

/-- Three decimal digits, zero padded (exact for `n < 1000`). -/
def pad3 (n : Nat) : List Char :=
  [Nat.digitChar (n / 100 % 10), Nat.digitChar (n / 10 % 10),
   Nat.digitChar (n % 10)]

/-- Four decimal digits, zero padded (exact for `n < 10000`). -/
def pad4 (n : Nat) : List Char :=
  [Nat.digitChar (n / 1000 % 10), Nat.digitChar (n / 100 % 10),
   Nat.digitChar (n / 10 % 10), Nat.digitChar (n % 10)]

/-- The character sequence of `toISOString`:
`YYYY-MM-DDTHH:mm:ss.sssZ`. -/
def isoChars (d : JsDate) : List Char :=
  pad4 d.year ++ ['-'] ++ pad2 d.month ++ ['-'] ++ pad2 d.day ++ ['T'] ++
  pad2 d.hour ++ [':'] ++ pad2 d.minute ++ [':'] ++ pad2 d.second ++
  ['.'] ++ pad3 d.ms ++ ['Z']

/-- `new Date(...).toISOString()` (Books.js:138). -/
def toISOString (d : JsDate) : String :=
  String.mk (isoChars d)

/-- Checks that a string has the shape of a simplified ISO-8601 timestamp
`YYYY-MM-DDTHH:mm:ss.sssZ`: 24 characters, digits and the fixed
separators in their fixed positions. -/
def isIso8601 (s : String) : Bool :=
  match s.toList with
  | [y1, y2, y3, y4, '-', m1, m2, '-', d1, d2, 'T',
     h1, h2, ':', n1, n2, ':', s1, s2, '.', f1, f2, f3, 'Z'] =>
      [y1, y2, y3, y4, m1, m2, d1, d2, h1, h2,
       n1, n2, s1, s2, f1, f2, f3].all Char.isDigit
  | _ => false

/-! ## Initialization effect (Books.js:35-77) -/

/-- What the mount-time initialization effect does.  `modalSet` is the
notification it installs, `none` when it never touches the modal slot. -/
structure InitResult where
  isAuthReady : Bool
  loading : Bool
  dbSet : Bool
  authSet : Bool
  userId : Option String
  signInAttempted : Bool
  authListenerRegistered : Bool
  configErrorLogged : Bool
  modalSet : Option NotificationState
deriving Repr, DecidableEq

/-- Shallow embedding of the first `useEffect` (Books.js:35-77), up to the
point where its synchronous body returns.  `firebaseConfig` is the parsed
configuration object; the guard is
`Object.keys(firebaseConfig).length === 0`.  In the non-empty branch the
handles are set, a sign-in is attempted and the identity listener is
registered; `isAuthReady`/`loading` are only flipped later by that
listener, and `userId` only ever changes through it. -/
def initEffect (firebaseConfig : List (String × Value)) : InitResult :=
  if (firebaseConfig.map Prod.fst).length = 0 then
    { isAuthReady := true, loading := false, dbSet := false,
      authSet := false, userId := none, signInAttempted := false,
      authListenerRegistered := false, configErrorLogged := true,
      modalSet := none }
  else
    { isAuthReady := false, loading := true, dbSet := true,
      authSet := true, userId := none, signInAttempted := true,
      authListenerRegistered := true, configErrorLogged := false,
      modalSet := none }

/-! ## Helper lemmas -/

theorem digitChar_mod_isDigit (n : Nat) : (Nat.digitChar (n % 10)).isDigit = true := by
  have h : n % 10 < 10 := Nat.mod_lt _ (by norm_num)
  exact (by decide : ∀ k, k < 10 → (Nat.digitChar k).isDigit = true) _ h

theorem isIso8601_toISOString (d : JsDate) : isIso8601 (toISOString d) = true := by
  simp [isIso8601, toISOString, isoChars, pad4, pad3, pad2, String.toList,
    List.all, digitChar_mod_isDigit]

theorem containsStr_append (pre pat post : String) :
    containsStr pat (pre ++ pat ++ post) :=
  ⟨pre, post, rfl⟩

theorem objInsert_fresh (obj : List (String × Value)) (k : String) (v : Value)
    (h : k ∉ obj.map Prod.fst) : objInsert obj k v = obj ++ [(k, v)] := by
  have hc : obj.any (fun p => p.1 = k) = false := by
    simp only [List.any_eq_false, decide_eq_true_eq]
    intro p hp hpk
    exact h (hpk ▸ List.mem_map_of_mem Prod.fst hp)
  simp [objInsert, hc]

theorem objSpread_disjoint (upd : List (String × Value)) :
    ∀ base : List (String × Value),
      (∀ k ∈ upd.map Prod.fst, k ∉ base.map Prod.fst) →
      (upd.map Prod.fst).Nodup →
      objSpread base upd = base ++ upd := by
  induction upd with
  | nil => intro base _ _; simp [objSpread]
  | cons kv rest ih =>
    intro base hdisj hnd
    obtain ⟨k, v⟩ := kv
    simp only [List.map_cons, List.nodup_cons] at hnd
    have hk : k ∉ base.map Prod.fst := hdisj k (by simp)
    have step : objSpread base ((k, v) :: rest) =
        objSpread (base ++ [(k, v)]) rest := by
      simp [objSpread, objInsert_fresh base k v hk]
    have hdisj' : ∀ k' ∈ rest.map Prod.fst,
        k' ∉ (base ++ [(k, v)]).map Prod.fst := by
      intro k' hk'
      simp only [List.map_append, List.mem_append, List.map_cons,
        List.map_nil, List.mem_singleton, not_or]
      refine ⟨hdisj k' (by simp [hk']), ?_⟩
      intro hke
      exact hnd.1 (hke ▸ hk')
    rw [step, ih (base ++ [(k, v)]) hdisj' hnd.2]
    simp

theorem mkCatalogEntry_no_id_field (d : SnapDoc)
    (h1 : "id" ∉ d.fields.map Prod.fst)
    (h2 : (d.fields.map Prod.fst).Nodup) :
    mkCatalogEntry d = ("id", Value.vStr d.id) :: d.fields := by
  have h := objSpread_disjoint d.fields [("id", Value.vStr d.id)] ?_ h2
  · simpa [mkCatalogEntry] using h
  · intro k hk
    simp only [List.map_cons, List.map_nil, List.mem_singleton]
    intro hkid
    exact h1 (hkid ▸ hk)

/-! ## Claim theorems -/

/-- C1: a `purchase(entryId, title, price)` call with a present identity,
a non-empty `entryId` and an available storage handle whose document write
succeeds creates exactly one `PurchaseRecord` — `userId` the identity,
`ebookId` the entry id, `bookTitle` the title, `price` the price, and
`purchaseDate` (the ISO string of the call instant) parseable as an
ISO-8601 timestamp — and shows a success notification (`visible` and
`isSuccess` true) whose message contains the title. -/
theorem purchase_success_creates_record
    (appId uid ebookId bookTitle : String) (price : Value)
    (d : JsDate) (newDocId : String) (hid : ebookId ≠ "") :
    handlePurchase appId (some uid) true ebookId bookTitle price
        (toISOString d) newDocId (Except.ok ()) =
      { modal := { visible := true,
                   message := "Successfully purchased \"" ++ bookTitle ++ "\"! Check your library.",
                   isSuccess := true },
        write := some ("artifacts/" ++ appId ++ "/users/" ++ uid ++ "/purchases/" ++ newDocId,
                       { ebookId := ebookId, bookTitle := bookTitle, price := price,
                         purchaseDate := toISOString d, userId := uid }),
        persisted := [{ ebookId := ebookId, bookTitle := bookTitle, price := price,
                        purchaseDate := toISOString d, userId := uid }],
        timer := none } ∧
    isIso8601 (toISOString d) = true ∧
    containsStr bookTitle
      ("Successfully purchased \"" ++ bookTitle ++ "\"! Check your library.") := by
  refine ⟨?_, isIso8601_toISOString d, containsStr_append _ _ _⟩
  simp [handlePurchase, hid]

/-- Witness for C1 at the spec's worked example: the catalog book
`mern_stack_guide` purchased by user `u1`. -/
theorem purchase_success_creates_record_witness :
    ("mern_stack_guide" : String) ≠ "" ∧
    (handlePurchase "default-app-id" (some "u1") true "mern_stack_guide"
        "MERN STACK" (Value.vNum 999)
        (toISOString ⟨2026, 10, 11, 0, 0, 0, 0⟩) "d1" (Except.ok ())).persisted =
      [{ ebookId := "mern_stack_guide", bookTitle := "MERN STACK",
         price := Value.vNum 999,
         purchaseDate := toISOString ⟨2026, 10, 11, 0, 0, 0, 0⟩,
         userId := "u1" }] :=
  ⟨by decide,
   by rw [(purchase_success_creates_record "default-app-id" "u1" "mern_stack_guide"
        "MERN STACK" (Value.vNum 999) ⟨2026, 10, 11, 0, 0, 0, 0⟩ "d1" (by decide)).1]⟩

/-- C2: a `purchase` call with absent identity attempts no write, shows
the non-success log-in notification, and schedules a 1500ms task which,
when it fires, sets the notification's `visible` flag to `false` and
navigates to `/register` exactly once. -/
theorem purchase_unauthenticated_redirects
    (appId : String) (db : Bool) (ebookId bookTitle : String) (price : Value)
    (nowIso newDocId : String) (writeRes : Except String Unit) :
    handlePurchase appId none db ebookId bookTitle price nowIso newDocId writeRes =
      { modal := { visible := true,
                   message := "You must be logged in to make a purchase. Redirecting you to register...",
                   isSuccess := false },
        write := none, persisted := [],
        timer := some (1500, .dismissThenNavigate "/register") } ∧
    (∀ m : NotificationState,
      runTask (.dismissThenNavigate "/register") m =
        ({ m with visible := false }, ["/register"])) :=
  ⟨rfl, fun _ => rfl⟩

/-- C3: no call of `handlePurchase` ever attempts (let alone persists) a
document write while the identity is absent, and every written record's
`userId` field is exactly the present identity. -/
theorem write_requires_identity
    (appId : String) (userId : Option String) (db : Bool)
    (ebookId bookTitle : String) (price : Value)
    (nowIso newDocId : String) (writeRes : Except String Unit) :
    (∀ p r, (handlePurchase appId userId db ebookId bookTitle price
        nowIso newDocId writeRes).write = some (p, r) →
      userId = some r.userId) ∧
    (∀ r ∈ (handlePurchase appId userId db ebookId bookTitle price
        nowIso newDocId writeRes).persisted, userId = some r.userId) := by
  cases userId with
  | none => simp [handlePurchase]
  | some uid =>
    by_cases hid : ebookId = "" <;> cases db <;> cases writeRes <;>
      simp_all [handlePurchase]

/-- Witness for C3: the write of a concrete successful call carries the
caller's identity. -/
theorem write_requires_identity_witness :
    (some "u1" : Option String) =
      some (PurchaseRecord.userId
        { ebookId := "e1", bookTitle := "t", price := Value.vNum 1,
          purchaseDate := "now", userId := "u1" }) :=
  (write_requires_identity "app" (some "u1") true "e1" "t" (Value.vNum 1)
      "now" "d1" (Except.ok ())).1
    "artifacts/app/users/u1/purchases/d1"
    { ebookId := "e1", bookTitle := "t", price := Value.vNum 1,
      purchaseDate := "now", userId := "u1" }
    (by decide)

/-- C5: a `purchase` call that reaches the write (identity present,
non-empty entry id, storage available) and whose write fails persists
zero records and shows a non-success notification whose message contains
the failure's message text. -/
theorem purchase_write_failure
    (appId uid ebookId bookTitle : String) (price : Value)
    (nowIso newDocId msg : String) (hid : ebookId ≠ "") :
    handlePurchase appId (some uid) true ebookId bookTitle price
        nowIso newDocId (Except.error msg) =
      { modal := { visible := true, message := "Purchase failed: " ++ msg,
                   isSuccess := false },
        write := some ("artifacts/" ++ appId ++ "/users/" ++ uid ++ "/purchases/" ++ newDocId,
                       { ebookId := ebookId, bookTitle := bookTitle, price := price,
                         purchaseDate := nowIso, userId := uid }),
        persisted := [], timer := none } ∧
    containsStr msg ("Purchase failed: " ++ msg) := by
  refine ⟨by simp [handlePurchase, hid], ⟨"Purchase failed: ", "", by simp⟩⟩

/-- Witness for C5 at a concrete failing write. -/
theorem purchase_write_failure_witness :
    ("e1" : String) ≠ "" ∧
    (handlePurchase "app" (some "u1") true "e1" "t" (Value.vNum 1)
        "now" "d1" (Except.error "quota exceeded")).persisted = [] :=
  ⟨by decide,
   by rw [(purchase_write_failure "app" "u1" "e1" "t" (Value.vNum 1)
        "now" "d1" "quota exceeded" (by decide)).1]⟩

/-- C6: with identity present, an empty entry id yields the non-success
"Ebook ID is missing." notification and no write regardless of storage
availability; with identity present and a non-empty entry id but no
storage handle, the non-success "Database connection failed." notification
is shown and no write occurs. -/
theorem purchase_validation_order
    (appId uid bookTitle : String) (price : Value)
    (nowIso newDocId : String) (writeRes : Except String Unit)
    (db : Bool) (ebookId : String) (hid : ebookId ≠ "") :
    handlePurchase appId (some uid) db "" bookTitle price
        nowIso newDocId writeRes =
      { modal := { visible := true, message := "Ebook ID is missing.",
                   isSuccess := false },
        write := none, persisted := [], timer := none } ∧
    handlePurchase appId (some uid) false ebookId bookTitle price
        nowIso newDocId writeRes =
      { modal := { visible := true,
                   message := "Database connection failed. Cannot process purchase.",
                   isSuccess := false },
        write := none, persisted := [], timer := none } ∧
    containsStr "Ebook ID is missing" "Ebook ID is missing." ∧
    containsStr "Database connection failed"
      "Database connection failed. Cannot process purchase." := by
  refine ⟨by simp [handlePurchase], by simp [handlePurchase, hid],
    ⟨"", ".", by decide⟩, ⟨"", ". Cannot process purchase.", by decide⟩⟩

/-- Witness for C6 at concrete inputs. -/
theorem purchase_validation_order_witness :
    ("e1" : String) ≠ "" ∧
    (handlePurchase "app" (some "u1") true "" "t" (Value.vNum 1)
        "now" "d1" (Except.ok ())).write = none ∧
    (handlePurchase "app" (some "u1") false "e1" "t" (Value.vNum 1)
        "now" "d1" (Except.ok ())).write = none := by
  have h := purchase_validation_order "app" "u1" "t" (Value.vNum 1)
    "now" "d1" (Except.ok ()) true "e1" (by decide)
  exact ⟨by decide, by rw [h.1], by rw [h.2.1]⟩

/-- C10: the successful write copies `title` and `price` verbatim into the
record — no validation or normalization — including an empty title and a
negative or non-numeric price. -/
theorem purchase_copies_title_price_verbatim
    (appId uid ebookId bookTitle : String) (price : Value)
    (nowIso newDocId : String) (hid : ebookId ≠ "") :
    ((handlePurchase appId (some uid) true ebookId bookTitle price
        nowIso newDocId (Except.ok ())).persisted.map PurchaseRecord.bookTitle
      = [bookTitle]) ∧
    ((handlePurchase appId (some uid) true ebookId bookTitle price
        nowIso newDocId (Except.ok ())).persisted.map PurchaseRecord.price
      = [price]) := by
  simp [handlePurchase, hid]

/-- Witness for C10: an empty title with a non-numeric price, and a
negative price, are both stored verbatim. -/
theorem purchase_copies_title_price_verbatim_witness :
    (("e1" : String) ≠ "" ∧
     (handlePurchase "app" (some "u1") true "e1" "" (Value.vStr "not-a-number")
        "now" "d1" (Except.ok ())).persisted.map PurchaseRecord.price
       = [Value.vStr "not-a-number"]) ∧
    (handlePurchase "app" (some "u1") true "e1" "" (Value.vNum (-999))
        "now" "d1" (Except.ok ())).persisted.map PurchaseRecord.price
      = [Value.vNum (-999)] :=
  ⟨⟨by decide,
    (purchase_copies_title_price_verbatim "app" "u1" "e1" ""
      (Value.vStr "not-a-number") "now" "d1" (by decide)).2⟩,
   (purchase_copies_title_price_verbatim "app" "u1" "e1" ""
      (Value.vNum (-999)) "now" "d1" (by decide)).2⟩

/-- C4 counterexample: the snapshot callback builds each entry as
`\x7b id: doc.id, ...doc.data() \x7d`, so a data field named `id`
overrides the document id.  For the two-document snapshot with distinct
document ids `a`, `b` whose data both hold `id = "x"`, the produced
entries are duplicated by id; and for the one-document snapshot with
document id `a` and data field `id = "b"`, the produced entry's id is
not the document id.  So the catalog is not always the documents mapped
to document-id-plus-fields with no duplicate ids. -/
theorem snapshot_map_counterexample :
    onSnapshotBooks [SnapDoc.mk "a" [("id", Value.vStr "x")],
                     SnapDoc.mk "b" [("id", Value.vStr "x")]] =
      [[("id", Value.vStr "x")], [("id", Value.vStr "x")]] ∧
    ("a" : String) ≠ "b" ∧
    ¬ ((onSnapshotBooks [SnapDoc.mk "a" [("id", Value.vStr "x")],
          SnapDoc.mk "b" [("id", Value.vStr "x")]]).map entryIdVal).Nodup ∧
    entryIdVal (mkCatalogEntry (SnapDoc.mk "a" [("id", Value.vStr "b")])) ≠
      some (Value.vStr "a") := by
  decide

/-- C4 amended: for every delivered snapshot whose documents have pairwise
distinct document ids (the backend guarantee) and whose field maps have
unique keys and no field named `id`, the catalog state after the snapshot
event is exactly the snapshot's documents, each mapped to its document id
plus its field contents, in delivered order, with no entry duplicated by
id; the previous catalog state is replaced wholesale (the result does not
depend on it). -/
theorem snapshot_map_amended (old : List CatalogEntry) (docs : List SnapDoc)
    (hids : (docs.map SnapDoc.id).Nodup)
    (hfields : ∀ d ∈ docs,
      "id" ∉ d.fields.map Prod.fst ∧ (d.fields.map Prod.fst).Nodup) :
    updateBooksOnSnapshot old docs =
      docs.map (fun d => ("id", Value.vStr d.id) :: d.fields) ∧
    ((updateBooksOnSnapshot old docs).map entryIdVal).Nodup ∧
    (∀ old', updateBooksOnSnapshot old docs = updateBooksOnSnapshot old' docs) := by
  have h1 : updateBooksOnSnapshot old docs =
      docs.map (fun d => ("id", Value.vStr d.id) :: d.fields) := by
    unfold updateBooksOnSnapshot onSnapshotBooks
    exact List.map_congr_left fun d hd =>
      mkCatalogEntry_no_id_field d (hfields d hd).1 (hfields d hd).2
  refine ⟨h1, ?_, fun _ => rfl⟩
  rw [h1]
  have h2 : (docs.map (fun d => ("id", Value.vStr d.id) :: d.fields)).map entryIdVal =
      (docs.map SnapDoc.id).map (fun s => some (Value.vStr s)) := by
    simp [entryIdVal, List.lookup]
  rw [h2]
  exact hids.map fun a b h => by simpa using h

/-- Witness for C4 amended, on a two-document snapshot. -/
theorem snapshot_map_amended_witness :
    updateBooksOnSnapshot initialBooks
        [SnapDoc.mk "a" [("title", Value.vStr "T")], SnapDoc.mk "b" []] =
      [[("id", Value.vStr "a"), ("title", Value.vStr "T")],
       [("id", Value.vStr "b")]] := by
  rw [(snapshot_map_amended initialBooks
      [SnapDoc.mk "a" [("title", Value.vStr "T")], SnapDoc.mk "b" []]
      (by decide) (by decide)).1]
  rfl

/-- C7: the subscription error callback sets the catalog to the static
default set `initialBooks`, regardless of the previous catalog; the same
non-empty default is the initial value of the catalog state before any
snapshot has been delivered. -/
theorem subscribe_error_default_catalog (old : List CatalogEntry) :
    booksOnSubscribeError old = initialBooks ∧
    initBooksState = initialBooks ∧
    initialBooks ≠ [] :=
  ⟨rfl, rfl, by decide⟩

/-- C8: with an absent/empty service configuration, the initialization
effect immediately marks readiness true and loading false, sets no
storage or auth handle, leaves the identity absent, attempts no sign-in,
registers no identity listener, logs the condition, and installs no
notification. -/
theorem init_missing_config_degraded (cfg : List (String × Value))
    (h : (cfg.map Prod.fst).length = 0) :
    initEffect cfg =
      { isAuthReady := true, loading := false, dbSet := false,
        authSet := false, userId := none, signInAttempted := false,
        authListenerRegistered := false, configErrorLogged := true,
        modalSet := none } := by
  simp [initEffect, h]

/-- Witness for C8 at the empty configuration. -/
theorem init_missing_config_degraded_witness :
    ((([] : List (String × Value)).map Prod.fst).length = 0) ∧
    initEffect [] =
      { isAuthReady := true, loading := false, dbSet := false,
        authSet := false, userId := none, signInAttempted := false,
        authListenerRegistered := false, configErrorLogged := true,
        modalSet := none } :=
  ⟨by decide, init_missing_config_degraded [] (by decide)⟩

/-- C9 counterexample: the automatic timed dismissal of the log-in
notification (Books.js:114, `setModal(prev => (\x7b ...prev,
visible: false \x7d))`) sets `visible` to `false` but keeps the message,
so it does not reset the slot to its empty state (`message` stays
non-empty). -/
theorem dismissal_counterexample :
    ((runTask (ScheduledTask.dismissThenNavigate "/register")
        (handlePurchase "default-app-id" none true "mern_stack_guide"
          "MERN STACK" (Value.vNum 999) "2026-01-01T00:00:00.000Z" "d1"
          (Except.ok ())).modal).1.visible = false) ∧
    ((runTask (ScheduledTask.dismissThenNavigate "/register")
        (handlePurchase "default-app-id" none true "mern_stack_guide"
          "MERN STACK" (Value.vNum 999) "2026-01-01T00:00:00.000Z" "d1"
          (Except.ok ())).modal).1.message ≠ "") := by
  decide

/-- C9 amended: every dismissal of a visible notification yields
`visible == false`; the user's closing control additionally resets the
slot fully (`message` empty, `isSuccess` false), while the automatic
timed dismissal preserves `message` and `isSuccess` unchanged. -/
theorem dismissal_amended :
    (∀ (m : NotificationState) (dest : String),
      (runTask (.dismissThenNavigate dest) m).1.visible = false ∧
      (runTask (.dismissThenNavigate dest) m).1.message = m.message ∧
      (runTask (.dismissThenNavigate dest) m).1.isSuccess = m.isSuccess) ∧
    modalCloseReset.visible = false ∧
    modalCloseReset.message = "" ∧
    modalCloseReset.isSuccess = false :=
  ⟨fun _ _ => ⟨rfl, rfl, rfl⟩, rfl, rfl, rfl⟩

end Books
